import Mathlib

/-
Shallow embedding of the SickGear scheduler and provider cache core
(sickgear/scheduler.py, sickgear/tvcache.py).

Conventions of the embedding:
* timestamps are `Int` seconds since the epoch; a `datetime` value that the
  code only reads `.hour` from is passed as a separate `Int` hour;
* a Python `timedelta` used as a cycle time is a `Nat` of total seconds;
  Python's `timedelta.seconds` attribute (the seconds of the day part)
  is `% 86400`;
* the database is per-provider state `CacheState`; functions that write the
  database instead return the ordered list of write operations `DBOp` they
  perform, and `applyOps` folds them into the state, so theorems can speak
  both about which writes happen and about the resulting state;
* external collaborators (the name parser, `helpers.find_show_by_id`, the
  provider connector, `Quality.get_proper_level`) are parameters of the
  functions that call them, bundled in `Provider` / `MatchEnv` records.
-/

namespace SickGear

/-! ## Python string primitives

Kernel-reducible implementations of the Python `str` operations the code
uses (`str.replace`, `str.split('|')`, `int()` on a decimal string,
substring containment for SQL `LIKE '%x%'`), over `List Char`. -/

/-- Python `s.replace(pat, rep)` for a non-empty `pat`: replace
non-overlapping occurrences left to right. `fuel` is the length of the
remaining text, so it never runs out. -/
def replaceAux (pat rep : List Char) : Nat → List Char → List Char
  | _, [] => []
  | 0, s => s
  | fuel + 1, c :: rest =>
    if pat ≠ [] ∧ pat.isPrefixOf (c :: rest) then
      rep ++ replaceAux pat rep fuel (List.drop (pat.length - 1) rest)
    else
      c :: replaceAux pat rep fuel rest

def strReplace (s pat rep : String) : String :=
  ⟨replaceAux pat.toList rep.toList s.toList.length s.toList⟩

/-- Python `s.split(sep)` for a one-character separator: always returns at
least one (possibly empty) part. -/
def splitChar (sep : Char) : List Char → List (List Char)
  | [] => [[]]
  | c :: rest =>
    let r := splitChar sep rest
    if c = sep then [] :: r
    else
      match r with
      | [] => [[c]]
      | h :: t => (c :: h) :: t

/-- Python `int(s)` restricted to the non-negative decimal strings this code
stores: `none` when the string is empty or has a non-digit. -/
def digitsToNat (cs : List Char) : Option Nat :=
  if cs ≠ [] ∧ cs.all (fun c => 48 ≤ c.toNat ∧ c.toNat ≤ 57) then
    some (cs.foldl (fun n c => 10 * n + (c.toNat - 48)) 0)
  else none

/-- Substring containment, the meaning of SQL `LIKE '%x%'`. -/
def containsSub (needle : List Char) : List Char → Bool
  | [] => needle.isEmpty
  | c :: rest => needle.isPrefixOf (c :: rest) || containsSub needle rest

/-- Python `'|'.join(parts)`. -/
def pipeJoin : List (List Char) → List Char
  | [] => []
  | [x] => x
  | x :: y :: xs => x ++ '|' :: pipeJoin (y :: xs)

/-! ## scheduler.py -/

/-- Value of a Python attribute as probed by `getattr(obj, name, default)`:
absent, a plain boolean, or a bound method. Truthiness of a bound method is
`true` whatever the method would return when called. -/
inductive Attr where
  | absent
  | boolVal (b : Bool)
  | funcVal (f : Unit → Bool)

/-- Python truthiness of `getattr(self.action, 'is_enabled', True)`
(scheduler.py line 90): the default `True` when absent, the boolean itself
when a data attribute, and `true` for a method object. -/
def Attr.truthy : Attr → Bool
  | .absent => true
  | .boolVal b => b
  | .funcVal _ => true

/-- The scheduled action as observed by `Scheduler.run`: its `is_enabled`
attribute, its `prevent_run` attribute (default `False`), and whether its
`run()` raises when invoked. -/
structure Action where
  is_enabled : Attr
  prevent_run : Bool
  raises : Bool

/-- Mutable scheduler state touched by one pass of the loop body. -/
structure SchedState where
  last_run : Int
  force : Bool
deriving DecidableEq

/-- What one pass of the loop body did. `ranAction lr ok` records that
`self.action.run()` was invoked while `self.last_run = lr`, and `ok` is
false when the action raised (the exception is caught at lines 126-128). -/
inductive TickOutcome where
  | disabledSleep
  | noRun
  | skippedPrevent
  | ranAction (lastRunAtCall : Int) (ok : Bool)
deriving DecidableEq

/-- Lines 96-106 of scheduler.py: has the interval elapsed, and if a
`start_time` anchor is set, is the current hour within the window?
Returns `should_run` after this step together with the (possibly advanced)
`last_run`: a missed window advances `last_run` to the current time so the
window is only rechecked after another full cycle. -/
def intervalDecision (cycle_time : Nat) (start_time : Option Int)
    (now_ts now_hour last_run : Int) : Bool × Int :=
  if now_ts - last_run ≥ (cycle_time : Int) then
    match start_time with
    | some sh =>
      let hour_diff : Int := now_hour - sh
      if ¬ hour_diff < 0 ∧ hour_diff < ((cycle_time % 86400) / 3600 : Nat) then
        (true, last_run)
      else
        -- set last_run to only check start_time after another cycle_time
        (false, now_ts)
    | none => (true, last_run)
  else (false, last_run)

/-- One pass of the body of the `while` loop of `Scheduler.run`
(scheduler.py lines 88-137), for an unpaused, unstopped thread.
`prevent_cycle` is `none` when `self.prevent_cycle_run is None`, otherwise
`some b` where `b` is what the predicate returns. -/
def schedulerTick (cycle_time : Nat) (start_time : Option Int) (prevent_cycle : Option Bool)
    (act : Action) (now_ts now_hour : Int) (st : SchedState) : SchedState × TickOutcome :=
  if act.is_enabled.truthy then
    -- current_time = datetime.datetime.now(); should_run = False
    let p1 := intervalDecision cycle_time start_time now_ts now_hour st.last_run
    let sr := p1.1 || st.force
    if sr && (prevent_cycle.getD false || act.prevent_run) then
      (⟨now_ts, false⟩, .skippedPrevent)
    else if sr then
      (⟨now_ts, false⟩, .ranAction now_ts (!act.raises))
    else
      (⟨p1.2, false⟩, .noRun)
  else
    -- disabled schedulers only sleep 30 seconds; nothing else happens
    (st, .disabledSleep)

/-- The loop itself: one `schedulerTick` per element of `ticks`, each element
providing that pass's `(now_ts, now_hour)` clock reading. -/
def schedulerRun (cycle_time : Nat) (start_time : Option Int) (prevent_cycle : Option Bool)
    (act : Action) : List (Int × Int) → SchedState → SchedState × List TickOutcome
  | [], st => (st, [])
  | t :: rest, st =>
    let r := schedulerTick cycle_time start_time prevent_cycle act t.1 t.2 st
    let rr := schedulerRun cycle_time start_time prevent_cycle act rest r.1
    (rr.1, r.2 :: rr.2)

/-! ## tvcache.py : data model -/

/-- One row of the `provider_cache` table, as inserted by `add_cache_entry`
(the `provider` column is implicit: the whole state is one provider's slice). -/
structure CacheRow where
  name : String
  season : Int
  episodes : String
  indexerid : Nat
  url : String
  time : Int
  quality : Int
  release_group : String
  version : Int
  indexer : Nat
deriving DecidableEq

/-- Per-provider database state: the `lastUpdate` and `lastSearch` rows for
this provider (`none` when no row exists) and its `provider_cache` rows. -/
structure CacheState where
  lastUpdate : Option Int
  lastSearch : Option Int
  rows : List CacheRow
deriving DecidableEq

/-- A database write performed by the cache code, in execution order. -/
inductive DBOp where
  | deleteProviderRows
  | insertRow (r : CacheRow)
  | setLastUpdate (t : Int)
  | setLastSearch (t : Int)
deriving DecidableEq

/-- Effect of one write on the provider's state. `insertRow` is
`INSERT OR IGNORE`: insert-if-absent on the full logical row. -/
def applyOp (st : CacheState) : DBOp → CacheState
  | .deleteProviderRows => { st with rows := [] }
  | .insertRow r => { st with rows := if r ∈ st.rows then st.rows else st.rows ++ [r] }
  | .setLastUpdate t => { st with lastUpdate := some t }
  | .setLastSearch t => { st with lastSearch := some t }

def applyOps (st : CacheState) (ops : List DBOp) : CacheState :=
  ops.foldl applyOp st

/-! ## tvcache.py : timestamps -/

/-- `TVCache._get_last_update` (lines 164-180): the stored value, with a
stored time in the future clamped to 0. -/
def get_last_update (st : CacheState) (now : Int) : Int :=
  match st.lastUpdate with
  | some t => if t > now then 0 else t
  | none => 0

/-- `TVCache._get_last_search` (lines 182-198), same clamp. -/
def get_last_search (st : CacheState) (now : Int) : Int :=
  match st.lastSearch with
  | some t => if t > now then 0 else t
  | none => 0

/-- `TVCache.should_update` (lines 231-238): `now - last_update >=
timedelta(minutes=update_iv)`. -/
def should_update (st : CacheState) (now : Int) (update_iv : Int) : Bool :=
  now - get_last_update st now ≥ 60 * update_iv

/-- `TVCache.should_clear_cache` (lines 240-247): `last_search >= last_update`. -/
def should_clear_cache (st : CacheState) (now : Int) : Bool :=
  get_last_search st now ≥ get_last_update st now

/-- `TVCache.clear_cache` (lines 64-67), as the writes it performs. -/
def clear_cache (st : CacheState) (now : Int) : List DBOp :=
  if should_clear_cache st now then [.deleteProviderRows] else []

/-! ## tvcache.py : ingestion -/

/-- Outcome of the external name parser for one title, after the
`series_name` check and the anime second pass of `add_cache_entry`
(lines 263-292): `none` models `InvalidNameException`, `InvalidShowException`,
a missing `series_name`, or a failed anime re-parse. `show_obj` fields are
collapsed into `prodid` / `tvid`. -/
structure ParseResult where
  season_number : Option Int
  episode_numbers : List Nat
  quality : Int
  release_group : String
  version : Int
  prodid : Nat
  tvid : Nat
deriving DecidableEq

/-- `TVCache.add_cache_entry` from the point the parse outcome is known
(lines 294-326). `season_number if season_number else 1` defaults a `None`
or `0` season to 1; the entry is built only if `season_number and
episode_numbers` is truthy. -/
def add_cache_entry (name url : String) (pr : Option ParseResult) (now : Int) :
    Option CacheRow :=
  match pr with
  | none => none
  | some p =>
    let season_number : Int :=
      match p.season_number with
      | some n => if n = 0 then 1 else n
      | none => 1
    if season_number ≠ 0 ∧ p.episode_numbers ≠ [] then
      some { name := name
             season := season_number
             episodes := ⟨'|' :: pipeJoin (p.episode_numbers.map (fun n => (toString n).toList)) ++ ['|']⟩
             indexerid := p.prodid
             url := url
             time := now
             quality := p.quality
             release_group := p.release_group
             version := p.version
             indexer := p.tvid }
    else none

/-- `TVCache._translate_title` (line 133): `title.replace(' ', '.')`. -/
def translate_title (t : String) : String := strReplace t " " "."

/-- `TVCache._translate_link_url` (line 144): `url.replace('&amp;', '&')`. -/
def translate_link_url (u : String) : String := strReplace u "&amp;" "&"

/-- One raw item from the source connector: what `_title_and_url` yields for
it, and what the external name parser would make of its translated title. -/
structure Item where
  title : Option String
  url : Option String
  nameParse : Option ParseResult

/-- `TVCache.parse_item` (lines 146-162): only items with a truthy title and
url are translated and handed to `add_cache_entry`. -/
def parse_item (it : Item) (now : Int) : Option CacheRow :=
  if it.title.getD "" ≠ "" ∧ it.url.getD "" ≠ "" then
    add_cache_entry (translate_title (it.title.getD ""))
      (translate_link_url (it.url.getD "")) it.nameParse now
  else none

/-- The provider connector as observed by `update_cache`: whether
`_check_auth` succeeds (it raises `AuthException` iff `authOk` is false) and
what `_cache_data` returns (`none` models Python `None`). -/
structure Provider where
  authOk : Bool
  cacheData : Option (List Item)

/-- Python truthiness of the `data` value in `update_cache`: falsy for
`None` and for an empty list. -/
def dataTruthy : Option (List Item) → Bool
  | none => false
  | some l => !l.isEmpty

/-- What `update_cache` returns to its caller: the literal `[]` of the auth
failure path, or Python `None` (no explicit return). -/
inductive PyRet where
  | emptyList
  | noneVal
deriving DecidableEq

/-- `TVCache.update_cache` (lines 89-119). `insertFails` models
`my_db.mass_action(cl)` raising: the exception is caught, logged, and the
batch leaves no rows behind. The writes are returned in execution order:
optional purge, then the batch insert, then `set_last_update`. -/
def update_cache (prov : Provider) (update_iv : Int) (insertFails : Bool)
    (st : CacheState) (now : Int) : PyRet × List DBOp :=
  if !prov.authOk then (.emptyList, [])
  else if should_update st now update_iv then
    let data := prov.cacheData
    let ops1 := if dataTruthy data then clear_cache st now else []
    let cl := (data.getD []).filterMap (fun it => parse_item it now)
    let ops2 := if 0 < cl.length then (if insertFails then [] else cl.map DBOp.insertRow) else []
    (.noneVal, ops1 ++ ops2 ++ [.setLastUpdate now])
  else (.noneVal, [])

/-! ## tvcache.py : matching -/

/-- The episode handle used both as the caller's requested unit and as the
dictionary key produced by `show_obj.get_episode`. -/
structure EpObj where
  tvid : Nat
  prodid : Nat
  season : Int
  episode : Nat
  wanted_quality : List Int
deriving DecidableEq

/-- A show as observed by `find_needed_episodes`. -/
structure ShowObj where
  is_anime : Bool
  want_episode : Int → Nat → Int → Bool → Bool
  get_episode : Int → Nat → EpObj

/-- External collaborators of `find_needed_episodes`: show lookup, the
wordlist filter, the provider's `anime_only` flag, whether
`provider.get_result` returns a result for a url, and the repack/proper
classification derived from the second parse of a title (with its internal
fallback on parse failure). -/
structure MatchEnv where
  findShow : Nat → Nat → Option ShowObj
  passWordlist : String → Bool
  animeOnly : Bool
  getResult : String → Bool
  properOf : String → Bool × Int

/-- A built result object, with the fields `find_needed_episodes` sets. -/
structure SearchResult where
  name : String
  url : String
  quality : Int
  release_group : String
  version : Int
  is_repack : Bool
  properlevel : Int
deriving DecidableEq

/-- The SQL `episodes LIKE '%|e|%'` predicate: substring containment. -/
def likeMatch (ep : Nat) (episodes : String) : Bool :=
  containsSub ('|' :: (toString ep).toList ++ ['|']) episodes.toList

/-- The per-unit SELECT of `find_needed_episodes` (lines 374-384): provider
scope is implicit in the state, the rest filters on indexer ids, season,
episode membership and wanted quality. -/
def queryRows (rows : List CacheRow) (u : EpObj) : List CacheRow :=
  rows.filter (fun r =>
    (r.indexer == u.tvid) && (r.indexerid == u.prodid) && (r.season == u.season)
      && likeMatch u.episode r.episodes && u.wanted_quality.contains r.quality)

/-- The per-row body of the result loop (lines 394-458): returns the
dictionary key and result object, or `none` when the row is skipped.
`split('|')[1]` takes the first stored episode number of the row; `int()`
of it never fails on rows built by `add_cache_entry`, so a non-numeric
first component is modelled as a skip. -/
def processRow (env : MatchEnv) (manual : Bool) (r : CacheRow) :
    Option (EpObj × SearchResult) :=
  match env.findShow r.indexer r.indexerid with
  | none => none
  | some show_obj =>
    if !env.passWordlist r.name then none
    else if env.animeOnly && !show_obj.is_anime then none
    else if r.season = -1 then none
    else
      let epStr := (splitChar '|' r.episodes.toList).getD 1 []
      if epStr = [] then none
      else
        match digitsToNat epStr with
        | none => none
        | some epNum =>
          if !show_obj.want_episode r.season epNum r.quality manual then none
          else
            let ep_obj := show_obj.get_episode r.season epNum
            if !env.getResult r.url then none
            else
              let pl := env.properOf r.name
              some (ep_obj,
                { name := r.name
                  url := r.url
                  quality := r.quality
                  release_group := r.release_group
                  version := r.version
                  is_repack := pl.1
                  properlevel := pl.2 })

/-- The `needed_eps` dictionary update (lines 461-464): append to the key's
list when present, otherwise add a new key at the end (insertion order). -/
def dictAppend (acc : List (EpObj × List SearchResult)) (k : EpObj) (v : SearchResult) :
    List (EpObj × List SearchResult) :=
  if acc.any (fun p => decide (p.1 = k)) then
    acc.map (fun p => if p.1 = k then (p.1, p.2 ++ [v]) else p)
  else acc ++ [(k, [v])]

/-- `TVCache.find_needed_episodes` (lines 360-468): run every unit's query,
flatten, early-return on an empty result set (still stamping `lastSearch`),
otherwise fold the row loop and stamp `lastSearch` at the end. -/
def find_needed_episodes (env : MatchEnv) (units : List EpObj) (manual : Bool)
    (st : CacheState) (now : Int) : List (EpObj × List SearchResult) × List DBOp :=
  let sql_result := (units.map (queryRows st.rows)).flatten
  if sql_result.isEmpty then ([], [.setLastSearch now])
  else
    let needed := sql_result.foldl (fun acc r =>
      match processRow env manual r with
      | none => acc
      | some (ep, res) => dictAppend acc ep res) []
    (needed, [.setLastSearch now])

/-- Outcome of `search_cache`: the returned list, or an uncaught `KeyError`
from `needed_eps[episode]`. -/
inductive SearchOutcome where
  | results (l : List SearchResult)
  | keyError
deriving DecidableEq

/-- `TVCache.search_cache` (lines 328-341): when the dictionary is
non-empty, index it with the requested episode — a missing key raises. -/
def search_cache (env : MatchEnv) (u : EpObj) (manual : Bool)
    (st : CacheState) (now : Int) : SearchOutcome × List DBOp :=
  let r := find_needed_episodes env [u] manual st now
  if r.1.length ≠ 0 then
    match r.1.find? (fun p => decide (p.1 = u)) with
    | some p => (.results p.2, r.2)
    | none => (.keyError, r.2)
  else (.results [], r.2)

end SickGear

namespace SickGear

/-! ## Helper lemmas -/

theorem applyOps_append (st : CacheState) (l1 l2 : List DBOp) :
    applyOps st (l1 ++ l2) = applyOps (applyOps st l1) l2 := by
  simp [applyOps, List.foldl_append]

theorem mem_rows_applyOp (st : CacheState) (op : DBOp) (r : CacheRow)
    (hop : op ≠ .deleteProviderRows) (hr : r ∈ st.rows) : r ∈ (applyOp st op).rows := by
  cases op with
  | deleteProviderRows => exact absurd rfl hop
  | insertRow r' =>
    simp only [applyOp]
    split
    · exact hr
    · exact List.mem_append_left _ hr
  | setLastUpdate t => simpa [applyOp] using hr
  | setLastSearch t => simpa [applyOp] using hr

theorem mem_rows_applyOps (st : CacheState) (ops : List DBOp) (r : CacheRow)
    (hops : DBOp.deleteProviderRows ∉ ops) (hr : r ∈ st.rows) :
    r ∈ (applyOps st ops).rows := by
  induction ops generalizing st with
  | nil => simpa [applyOps] using hr
  | cons op rest ih =>
    have h1 : op ≠ .deleteProviderRows := by
      rintro rfl
      exact hops (List.mem_cons_self _ _)
    have h2 : DBOp.deleteProviderRows ∉ rest := fun hm => hops (List.mem_cons_of_mem _ hm)
    exact ih (applyOp st op) h2 (mem_rows_applyOp st op r h1 hr)

theorem lastUpdate_applyOps_stamp (st : CacheState) (pre : List DBOp) (t : Int) :
    (applyOps st (pre ++ [DBOp.setLastUpdate t])).lastUpdate = some t := by
  rw [applyOps_append]
  rfl

end SickGear

namespace SickGear

/-! ## Claim C1 -/

/-- C1: when the provider's `check_auth()` raises `AuthException`,
`update_cache` returns the empty list and performs no database write at
all: no row is deleted, no row is inserted, and `lastUpdate` is untouched,
so the state is unchanged. -/
theorem update_cache_auth_error_no_mutation (prov : Provider) (update_iv : Int)
    (insertFails : Bool) (st : CacheState) (now : Int) (h : prov.authOk = false) :
    update_cache prov update_iv insertFails st now = (.emptyList, []) ∧
      applyOps st (update_cache prov update_iv insertFails st now).2 = st := by
  simp [update_cache, h, applyOps]

theorem update_cache_auth_error_no_mutation_w :
    update_cache ⟨false, none⟩ 10 false ⟨some 5, some 5, []⟩ 1000 = (.emptyList, []) ∧
      applyOps ⟨some 5, some 5, []⟩
        (update_cache ⟨false, none⟩ 10 false ⟨some 5, some 5, []⟩ 1000).2 = ⟨some 5, some 5, []⟩ :=
  update_cache_auth_error_no_mutation ⟨false, none⟩ 10 false ⟨some 5, some 5, []⟩ 1000 rfl

/-! ## Claim C2 -/

/-- C2: whenever authentication succeeds and `should_update` is true, the
write list of `update_cache` ends with `set_last_update(now)` — whatever
the fetch returned and whether or not the batch insert failed — so the
resulting state's `lastUpdate` is stamped to the current time. -/
theorem update_cache_stamps_last_update (prov : Provider) (update_iv : Int)
    (insertFails : Bool) (st : CacheState) (now : Int)
    (hauth : prov.authOk = true) (hupd : should_update st now update_iv = true) :
    ∃ pre, (update_cache prov update_iv insertFails st now).2 = pre ++ [.setLastUpdate now] ∧
      (applyOps st (update_cache prov update_iv insertFails st now).2).lastUpdate = some now := by
  have hops : (update_cache prov update_iv insertFails st now).2 =
      ((if dataTruthy prov.cacheData then clear_cache st now else []) ++
        (if 0 < ((prov.cacheData.getD []).filterMap (fun it => parse_item it now)).length then
          (if insertFails then [] else
            ((prov.cacheData.getD []).filterMap (fun it => parse_item it now)).map DBOp.insertRow)
         else [])) ++ [.setLastUpdate now] := by
    simp [update_cache, hauth, hupd, List.append_assoc]
  exact ⟨_, hops, by rw [hops, lastUpdate_applyOps_stamp]⟩

theorem update_cache_stamps_last_update_w :
    ∃ pre, (update_cache ⟨true, none⟩ 10 false ⟨none, none, []⟩ 1000).2
        = pre ++ [.setLastUpdate 1000] ∧
      (applyOps ⟨none, none, []⟩
        (update_cache ⟨true, none⟩ 10 false ⟨none, none, []⟩ 1000).2).lastUpdate = some 1000 :=
  update_cache_stamps_last_update ⟨true, none⟩ 10 false ⟨none, none, []⟩ 1000 rfl (by decide)

/-! ## Claim C3 -/

/-- C3: `should_clear_cache` is true exactly when the `lastSearch`
timestamp, as read back (with the future-clamp), is at least the
`lastUpdate` timestamp as read back; and any run of `update_cache` for
which `should_clear_cache` is false keeps every previously persisted row
of the provider in the resulting state, even when new items are fetched
and inserted. -/
theorem should_clear_iff_and_rows_intact :
    (∀ (st : CacheState) (now : Int),
      should_clear_cache st now = true ↔ get_last_search st now ≥ get_last_update st now) ∧
    (∀ (prov : Provider) (update_iv : Int) (insertFails : Bool) (st : CacheState) (now : Int)
      (r : CacheRow), should_clear_cache st now = false → r ∈ st.rows →
      r ∈ (applyOps st (update_cache prov update_iv insertFails st now).2).rows) := by
  constructor
  · intro st now
    simp [should_clear_cache]
  · intro prov update_iv insertFails st now r hclear hr
    have hnodel : DBOp.deleteProviderRows ∉ (update_cache prov update_iv insertFails st now).2 := by
      intro hmem
      unfold update_cache at hmem
      split at hmem
      · simp at hmem
      · split at hmem
        · simp only [clear_cache, hclear, if_false, Bool.false_eq_true] at hmem
          simp only [if_neg (Bool.false_ne_true ∘ (hclear ▸ ·)), List.append_assoc] at hmem
          rcases List.mem_append.mp hmem with h1 | h1
          · split at h1
            · simp [clear_cache, hclear] at h1
            · simp at h1
          · rcases List.mem_append.mp h1 with h2 | h2
            · split at h2
              · split at h2
                · simp at h2
                · rcases List.mem_map.mp h2 with ⟨_, _, habs⟩
                  exact DBOp.noConfusion habs
              · simp at h2
            · simp at h2
        · simp at hmem
    exact mem_rows_applyOps st _ r hnodel hr

theorem should_clear_iff_and_rows_intact_w :
    (⟨"RowW", 1, "|2|", 1, "uW", 0, 1, "rg", 0, 1⟩ : CacheRow) ∈
      (applyOps ⟨some 50, none, [⟨"RowW", 1, "|2|", 1, "uW", 0, 1, "rg", 0, 1⟩]⟩
        (update_cache ⟨true, some [⟨some "T S01E03", some "u2", some ⟨some 1, [3], 1, "rg", 0, 1, 1⟩⟩]⟩
          10 false ⟨some 50, none, [⟨"RowW", 1, "|2|", 1, "uW", 0, 1, "rg", 0, 1⟩]⟩ 1000).2).rows :=
  should_clear_iff_and_rows_intact.2
    ⟨true, some [⟨some "T S01E03", some "u2", some ⟨some 1, [3], 1, "rg", 0, 1, 1⟩⟩]⟩
    10 false ⟨some 50, none, [⟨"RowW", 1, "|2|", 1, "uW", 0, 1, "rg", 0, 1⟩]⟩ 1000
    ⟨"RowW", 1, "|2|", 1, "uW", 0, 1, "rg", 0, 1⟩ (by decide) (by decide)

/-! ## Claim C7 -/

/-- C7: every call of `find_needed_episodes` performs exactly one
`lastSearch` stamp, at the current time, as its only database write — both
on the early path where no rows match the queries and on the path where
rows are processed. -/
theorem find_needed_stamps_last_search (env : MatchEnv) (units : List EpObj) (manual : Bool)
    (st : CacheState) (now : Int) :
    (find_needed_episodes env units manual st now).2 = [.setLastSearch now] := by
  unfold find_needed_episodes
  dsimp only
  split <;> rfl

end SickGear

namespace SickGear

/-! ## Claim C4 -/

/-- C4: the claim fails on the code. `Scheduler.run` tests the truthiness
of `getattr(self.action, 'is_enabled', True)` without calling it, and a
bound method object is always truthy, so for an action whose `is_enabled`
method returns `False` (such as `SubtitlesFinder.is_enabled` when subtitles
are off) the pass does NOT sleep the 30-unit backoff: it enters the
decision logic, evaluates `should_run`, advances `last_run` and executes
the action. -/
theorem scheduler_disabled_method_ignored :
    Attr.truthy (.funcVal (fun _ => false)) = true ∧
    schedulerTick 10 none none ⟨.funcVal (fun _ => false), false, false⟩ 100 0 ⟨0, false⟩
      = (⟨100, false⟩, .ranAction 100 true) :=
  ⟨rfl, rfl⟩

/-! ## Claim C5 -/

/-- C5: at a tick where the interval has elapsed and a `start_time` anchor
is configured (and neither the force flag nor a prevent condition
interferes), the action runs exactly when
`0 <= now.hour - start_time.hour < cycle_time in hours`; when the window
check fails the action does not run but `last_run` is still advanced to
the tick's current time. (`cycle_time < 86400` makes the code's
`cycle_time.seconds // 3600` equal to the cycle time in hours.) -/
theorem scheduler_start_time_window (cycle_time : Nat) (sh : Int)
    (prevent_cycle : Option Bool) (act : Action) (now_ts now_hour : Int) (st : SchedState)
    (hen : act.is_enabled.truthy = true) (hforce : st.force = false)
    (hpc : prevent_cycle.getD false = false) (hpr : act.prevent_run = false)
    (helapsed : now_ts - st.last_run ≥ (cycle_time : Int)) (hcyc : cycle_time < 86400) :
    (0 ≤ now_hour - sh ∧ now_hour - sh < ((cycle_time / 3600 : Nat) : Int) →
      schedulerTick cycle_time (some sh) prevent_cycle act now_ts now_hour st
        = (⟨now_ts, false⟩, .ranAction now_ts (!act.raises))) ∧
    (¬ (0 ≤ now_hour - sh ∧ now_hour - sh < ((cycle_time / 3600 : Nat) : Int)) →
      schedulerTick cycle_time (some sh) prevent_cycle act now_ts now_hour st
        = (⟨now_ts, false⟩, .noRun)) := by
  have hmod : cycle_time % 86400 = cycle_time := Nat.mod_eq_of_lt hcyc
  constructor
  · intro hwin
    have hw : ¬ now_hour - sh < 0 ∧ now_hour - sh < (((cycle_time % 86400) / 3600 : Nat) : Int) := by
      refine ⟨not_lt.mpr hwin.1, ?_⟩
      rw [hmod]
      exact hwin.2
    have hid : intervalDecision cycle_time (some sh) now_ts now_hour st.last_run
        = (true, st.last_run) := by
      unfold intervalDecision
      rw [if_pos helapsed]
      dsimp only
      rw [if_pos hw]
    unfold schedulerTick
    rw [if_pos hen]
    dsimp only
    rw [hid]
    simp [hforce, hpc, hpr]
  · intro hwin
    have hw : ¬ (¬ now_hour - sh < 0 ∧ now_hour - sh < (((cycle_time % 86400) / 3600 : Nat) : Int)) := by
      intro h
      apply hwin
      refine ⟨not_lt.mp h.1, ?_⟩
      rw [hmod] at h
      exact h.2
    have hid : intervalDecision cycle_time (some sh) now_ts now_hour st.last_run
        = (false, now_ts) := by
      unfold intervalDecision
      rw [if_pos helapsed]
      dsimp only
      rw [if_neg hw]
    unfold schedulerTick
    rw [if_pos hen]
    dsimp only
    rw [hid]
    simp [hforce, hpc, hpr]

theorem scheduler_start_time_window_w :
    schedulerTick 14400 (some 2) none ⟨.absent, false, false⟩ 100000 1 ⟨0, false⟩
      = (⟨100000, false⟩, .noRun) :=
  (scheduler_start_time_window 14400 2 none ⟨.absent, false, false⟩ 100000 1 ⟨0, false⟩
    rfl rfl rfl rfl (by decide) (by decide)).2 (by decide)

end SickGear

namespace SickGear

/-! ## Claim C6 -/

/-- C6: whenever a tick actually executes the action, `last_run` already
holds the tick's current time at the moment of invocation, and the
resulting state has `last_run = now`. This is independent of whether the
action raises — the exception is caught, so the outcome and state are the
same except for the recorded success flag, and the loop goes on to
produce an outcome for every subsequent tick. -/
theorem scheduler_advances_last_run_then_catches (cycle_time : Nat) (start_time : Option Int)
    (prevent_cycle : Option Bool) (act : Action) (now_ts now_hour : Int) (st : SchedState)
    (lr : Int) (ok : Bool)
    (h : (schedulerTick cycle_time start_time prevent_cycle act now_ts now_hour st).2
        = .ranAction lr ok) :
    lr = now_ts ∧
    (∀ b : Bool,
      schedulerTick cycle_time start_time prevent_cycle { act with raises := b } now_ts now_hour st
        = (⟨now_ts, false⟩, .ranAction now_ts (!b))) ∧
    (∀ (act' : Action) (ticks : List (Int × Int)) (st' : SchedState),
      (schedulerRun cycle_time start_time prevent_cycle act' ticks st').2.length = ticks.length) := by
  have hlen : ∀ (act' : Action) (ticks : List (Int × Int)) (st' : SchedState),
      (schedulerRun cycle_time start_time prevent_cycle act' ticks st').2.length = ticks.length := by
    intro act' ticks
    induction ticks with
    | nil => intro st'; rfl
    | cons t rest ih =>
      intro st'
      simp [schedulerRun, ih]
  have key : ∀ b : Bool,
      schedulerTick cycle_time start_time prevent_cycle { act with raises := b } now_ts now_hour st
        = (⟨now_ts, false⟩, .ranAction now_ts (!b)) := by
    intro b
    by_cases hen : act.is_enabled.truthy = true
    · unfold schedulerTick at h ⊢
      rw [if_pos hen] at h ⊢
      dsimp only at h ⊢
      by_cases hpv : (((intervalDecision cycle_time start_time now_ts now_hour st.last_run).1
          || st.force) && (prevent_cycle.getD false || act.prevent_run)) = true
      · rw [if_pos hpv] at h
        simp at h
      · rw [if_neg hpv] at h ⊢
        by_cases hsr : ((intervalDecision cycle_time start_time now_ts now_hour st.last_run).1
            || st.force) = true
        · rw [if_pos hsr]
        · rw [if_neg hsr] at h
          simp at h
    · unfold schedulerTick at h
      rw [if_neg hen] at h
      simp at h
  have hmain := key act.raises
  have hact : ({ act with raises := act.raises } : Action) = act := rfl
  rw [hact] at hmain
  rw [hmain] at h
  refine ⟨?_, key, hlen⟩
  injection h with h1 h2
  exact h1.symm

theorem scheduler_advances_last_run_then_catches_w :
    (10 : Int) = 10 ∧
    (∀ b : Bool,
      schedulerTick 5 none none ⟨.absent, false, b⟩ 10 0 ⟨0, false⟩
        = (⟨10, false⟩, .ranAction 10 (!b))) := by
  have h := scheduler_advances_last_run_then_catches 5 none none ⟨.absent, false, false⟩
    10 0 ⟨0, false⟩ 10 true (by decide)
  exact ⟨h.1, h.2.1⟩

end SickGear

namespace SickGear

/-! ## Claim C8

Concrete scenario-D data (entry stores episodes as `|2|3|`) and a variant
whose episode set is stored in the order `|3|2|`. -/

def showD : ShowObj := ⟨false, fun _ _ _ _ => true, fun s e => ⟨1, 1, s, e, [1]⟩⟩

def envD : MatchEnv :=
  ⟨fun a b => if a = 1 ∧ b = 1 then some showD else none,
    fun _ => true, false, fun _ => true, fun _ => (false, 0)⟩

def uD : EpObj := ⟨1, 1, 1, 2, [1]⟩

def rowD : CacheRow := ⟨"Show.Name.S01E02E03", 1, "|2|3|", 1, "u1", 0, 1, "rg", 0, 1⟩

def stD : CacheState := ⟨some 0, some 0, [rowD]⟩

def resD : SearchResult := ⟨"Show.Name.S01E02E03", "u1", 1, "rg", 0, false, 0⟩

def rowG : CacheRow := ⟨"Show.Name.S01E03E02", 1, "|3|2|", 1, "u1", 0, 1, "rg", 0, 1⟩

def stG : CacheState := ⟨some 0, some 0, [rowG]⟩

def resG : SearchResult := ⟨"Show.Name.S01E03E02", "u1", 1, "rg", 0, false, 0⟩

def epG : EpObj := ⟨1, 1, 1, 3, [1]⟩

/-- C8 counterexample: the claim that an accepted row is grouped under the
unit whose query binding produced it is false. The unit `uD` wants season 1
episode 2 with quality 1; its query accepts the persisted row `rowG`
(season 1, stored episode set `|3|2|`, quality 1), yet the single
MatchResult is grouped under the episode object for episode 3 — the first
episode stored in the row — not under `uD`. -/
theorem find_needed_grouping_counterexample :
    queryRows stG.rows uD = [rowG] ∧
    (find_needed_episodes envD [uD] false stG 7).1 = [(epG, [resG])] ∧
    epG ≠ uD := by
  refine ⟨by decide, by decide, by decide⟩

/-- C8 (amended): each accepted row yields exactly one MatchResult, but it
is grouped under the episode object built from the row's season and the
FIRST episode number stored in the row's episodes field — which may differ
from the unit whose query produced the row. In scenario D, where the entry
stores episodes `|2|3|`, the first stored episode equals the requested
episode 2, so exactly one MatchResult is returned for that unit. -/
theorem find_needed_groups_by_first_stored_episode :
    (∀ (env : MatchEnv) (manual : Bool) (r : CacheRow) (ep : EpObj) (res : SearchResult),
      processRow env manual r = some (ep, res) →
      ∃ sh, env.findShow r.indexer r.indexerid = some sh ∧
        ∃ n, digitsToNat ((splitChar '|' r.episodes.toList).getD 1 []) = some n ∧
          ep = sh.get_episode r.season n) ∧
    find_needed_episodes envD [uD] false stD 3 = ([(uD, [resD])], [.setLastSearch 3]) := by
  constructor
  · intro env manual r ep res h
    unfold processRow at h
    cases hfs : env.findShow r.indexer r.indexerid with
    | none => rw [hfs] at h; simp at h
    | some show_obj =>
      rw [hfs] at h
      dsimp only at h
      by_cases h1 : (!env.passWordlist r.name) = true
      · rw [if_pos h1] at h; simp at h
      · rw [if_neg h1] at h
        by_cases h2 : (env.animeOnly && !show_obj.is_anime) = true
        · rw [if_pos h2] at h; simp at h
        · rw [if_neg h2] at h
          by_cases h3 : r.season = -1
          · rw [if_pos h3] at h; simp at h
          · rw [if_neg h3] at h
            by_cases h4 : (splitChar '|' r.episodes.toList).getD 1 [] = []
            · rw [if_pos h4] at h; simp at h
            · rw [if_neg h4] at h
              cases hdig : digitsToNat ((splitChar '|' r.episodes.toList).getD 1 []) with
              | none => rw [hdig] at h; simp at h
              | some n =>
                rw [hdig] at h
                dsimp only at h
                by_cases h5 : (!show_obj.want_episode r.season n r.quality manual) = true
                · rw [if_pos h5] at h; simp at h
                · rw [if_neg h5] at h
                  by_cases h6 : (!env.getResult r.url) = true
                  · rw [if_pos h6] at h; simp at h
                  · rw [if_neg h6] at h
                    refine ⟨show_obj, rfl, n, rfl, ?_⟩
                    injection h with hpair
                    cases hpair
                    rfl
  · decide

theorem find_needed_groups_by_first_stored_episode_w :
    ∃ sh, envD.findShow rowD.indexer rowD.indexerid = some sh ∧
      ∃ n, digitsToNat ((splitChar '|' rowD.episodes.toList).getD 1 []) = some n ∧
        uD = sh.get_episode rowD.season n :=
  find_needed_groups_by_first_stored_episode.1 envD false rowD uD resD (by decide)

/-! ## Claim C9 -/

/-- C9 counterexample: a parse result that resolves NO season number but a
non-empty episode set is still persisted — `add_cache_entry` substitutes
season 1 for the unresolved season instead of rejecting the entry. -/
theorem add_cache_entry_unresolved_season_persisted :
    add_cache_entry "Show.Name.E02" "u" (some ⟨none, [2], 1, "rg", 1, 5, 1⟩) 0
      = some ⟨"Show.Name.E02", 1, "|2|", 5, "u", 0, 1, "rg", 1, 1⟩ ∧
    (⟨none, [2], 1, "rg", 1, 5, 1⟩ : ParseResult).season_number = none := by
  refine ⟨by decide, rfl⟩

/-- C9 (amended): `add_cache_entry` persists an entry exactly when the
parse succeeded and resolved a non-empty episode set; a missing (or zero)
season number is defaulted to 1 rather than blocking persistence, so an
entry with no resolvable episode set is never persisted but a missing
season alone does not prevent it. -/
theorem add_cache_entry_persists_iff_episodes (name url : String) (pr : Option ParseResult)
    (now : Int) :
    (add_cache_entry name url pr now).isSome = true ↔
      ∃ p, pr = some p ∧ p.episode_numbers ≠ [] := by
  cases pr with
  | none => simp [add_cache_entry]
  | some p =>
    have hsn : (match p.season_number with
        | some n => if n = 0 then (1 : Int) else n
        | none => 1) ≠ 0 := by
      cases p.season_number with
      | none => simp
      | some n =>
        by_cases hn : n = 0
        · simp [hn]
        · simp [hn]
    unfold add_cache_entry
    dsimp only
    split
    next hgate =>
      simp only [Option.isSome_some, true_iff]
      exact ⟨p, rfl, hgate.2⟩
    next hgate =>
      simp only [Option.isSome_none, Bool.false_eq_true, false_iff]
      rintro ⟨q, hq, hne⟩
      have hpq := Option.some.inj hq
      subst hpq
      exact hgate ⟨hsn, hne⟩

theorem add_cache_entry_persists_iff_episodes_w :
    (add_cache_entry "N" "u" (some ⟨some 1, [2], 1, "rg", 0, 1, 1⟩) 0).isSome = true :=
  (add_cache_entry_persists_iff_episodes "N" "u" (some ⟨some 1, [2], 1, "rg", 0, 1, 1⟩) 0).mpr
    ⟨⟨some 1, [2], 1, "rg", 0, 1, 1⟩, rfl, by decide⟩

/-! ## Claim C10

A unit requesting episode 2 whose matching persisted row stores its
episode set as `|3|2|`: the result dictionary is keyed under episode 3. -/

def showK : ShowObj := ⟨false, fun _ _ _ _ => true, fun s e => ⟨2, 3, s, e, [1]⟩⟩

def envK : MatchEnv :=
  ⟨fun a b => if a = 2 ∧ b = 3 then some showK else none,
    fun _ => true, false, fun _ => true, fun _ => (false, 0)⟩

def uK : EpObj := ⟨2, 3, 1, 2, [1]⟩

def rowK : CacheRow := ⟨"K.Show.S01E03E02", 1, "|3|2|", 3, "uK", 0, 1, "rg", 0, 2⟩

def stK : CacheState := ⟨some 0, some 0, [rowK]⟩

/-- C10: whenever `find_needed_episodes` returns a non-empty dictionary
none of whose keys is the requested episode, `search_cache`'s lookup
`needed_eps[episode]` raises an uncaught KeyError instead of returning an
empty list. (The witness exhibits a concrete such input: a persisted
multi-episode entry whose first stored episode differs from the requested
one.) -/
theorem search_cache_keyerror_on_missing_key (env : MatchEnv) (u : EpObj) (manual : Bool)
    (st : CacheState) (now : Int)
    (hne : (find_needed_episodes env [u] manual st now).1 ≠ [])
    (hkeys : ∀ p ∈ (find_needed_episodes env [u] manual st now).1, p.1 ≠ u) :
    (search_cache env u manual st now).1 = .keyError := by
  have hfind : (find_needed_episodes env [u] manual st now).1.find?
      (fun p => decide (p.1 = u)) = none := by
    apply List.find?_eq_none.mpr
    intro x hx
    simpa using hkeys x hx
  have hlen : ¬ (find_needed_episodes env [u] manual st now).1.length = 0 := by
    simpa [List.length_eq_zero] using hne
  unfold search_cache
  dsimp only
  rw [if_pos hlen, hfind]

theorem search_cache_keyerror_on_missing_key_w :
    (search_cache envK uK false stK 7).1 = .keyError :=
  search_cache_keyerror_on_missing_key envK uK false stK 7 (by decide) (by decide)

end SickGear
